import Mathlib

/-!
Verification of the local-library book controller
(src/controllers/bookController.js) and the Author model appended to it.

Shallow embedding conventions:
* Mongo document ids are modelled as `String` (the controller only ever
  receives them as request strings and compares them for equality).
* The document store is a `Store` of four lists; `findById`, a filtered
  `find`, `countDocuments`, `findByIdAndDelete` and `findByIdAndUpdate`
  are modelled as pure list operations.
* An Express handler is modelled as a pure function from the store and the
  request data to the updated store and the sequence of response actions it
  performs (`res.render`, `res.redirect`, `next(err)`), in program order.
* `express-validator` chains `body(f, msg).trim().isLength({min:1}).escape()`
  are modelled by `checkField`: the value is trimmed, validated as non-empty,
  and escaped (validator.js `escape`, reproduced character by character);
  `body("genre.*").escape()` maps `escape` over the genre list.
* Dates on an Author are modelled by their externally formatted rendering
  (luxon `DATE_MED` formatting is an external collaborator), so
  `date_of_birth`/`date_of_death` hold the formatted date string.
-/

namespace LocalLibrary

/-- A Genre record (model `genre`): name plus its id. -/
structure Genre where
  _id : String
  name : String
deriving DecidableEq, Repr

/-- A Genre as shown in the book form: the transient per-request `checked`
flag marks a previously selected genre. -/
structure GenreChecked where
  genre : Genre
  checked : Bool
deriving DecidableEq, Repr

/-- An Author record (model `author` in the appended source): required name
parts and optional dates; the dates are represented by their external
(luxon) formatted rendering. -/
structure Author where
  _id : String
  first_name : String
  family_name : String
  date_of_birth : Option String
  date_of_death : Option String
deriving DecidableEq, Repr

/-- A Book record: title, a reference to one Author, summary, isbn, and a
list of Genre references. -/
structure Book where
  _id : String
  title : String
  author : String
  summary : String
  isbn : String
  genre : List String
deriving DecidableEq, Repr

/-- A BookInstance record: a reference to one Book, imprint, status and an
optional due date (formatted rendering, as with Author dates). -/
structure BookInstance where
  _id : String
  book : String
  imprint : String
  status : String
  due_back : Option String
deriving DecidableEq, Repr

/-- The document store: one collection per entity. -/
structure Store where
  books : List Book
  bookinstances : List BookInstance
  authors : List Author
  genres : List Genre
deriving DecidableEq, Repr

/-- `Model.findById(id).exec()`: the first document whose `_id` matches. -/
def findById (books : List Book) (id : String) : Option Book :=
  books.find? (fun b => b._id == id)

/-- `BookInstance.find({ book: id }).exec()`: all instances referencing
the given book id. -/
def instancesOf (instances : List BookInstance) (id : String) : List BookInstance :=
  instances.filter (fun bi => bi.book == id)

/-- `Book.findByIdAndDelete(id)`: remove the (unique) document with the
given id; a no-op when the id does not resolve. -/
def deleteById (books : List Book) (id : String) : List Book :=
  books.eraseP (fun b => b._id == id)

/-- `Book.findByIdAndUpdate(id, doc, {})` on the collection: replace the
fields of the first document matching `id` with those of `doc`; the stored
`_id` is immutable in the store and is kept. -/
def updateById (books : List Book) (id : String) (doc : Book) : List Book :=
  match books with
  | [] => []
  | b :: bs =>
      if b._id == id then { doc with _id := b._id } :: bs
      else b :: updateById bs id doc

/-- `Book.findByIdAndUpdate(id, doc, {})` return value: with default
options mongoose resolves to the document as it was before the update, or
`null` when the id does not resolve. -/
def updateByIdResult (books : List Book) (id : String) : Option Book :=
  findById books id

/-- Insertion sort step for the modelled `.sort({key: 1})` of a find. -/
def insertSorted (le : α → α → Bool) (x : α) : List α → List α
  | [] => [x]
  | y :: ys => if le x y then x :: y :: ys else y :: insertSorted le x ys

/-- Modelled `.sort({key: 1})`: stable ascending sort by a boolean order. -/
def sortByKey (le : α → α → Bool) : List α → List α
  | [] => []
  | x :: xs => insertSorted le x (sortByKey le xs)

/-- `Author.find().sort({ family_name: 1 }).exec()`. -/
def allAuthorsSorted (db : Store) : List Author :=
  sortByKey (fun a b => decide (a.family_name ≤ b.family_name)) db.authors

/-- `Genre.find().sort({ name: 1 }).exec()`. -/
def allGenresSorted (db : Store) : List Genre :=
  sortByKey (fun a b => decide (a.name ≤ b.name)) db.genres

/-- The loop marking previously selected genres as checked
(`if (book.genre.includes(genre._id)) genre.checked = "true"`). -/
def markChecked (genres : List Genre) (selected : List String) : List GenreChecked :=
  genres.map (fun g => { genre := g, checked := selected.contains g._id })

/-- The data mapping handed to `res.render("book_form", ...)`. -/
structure BookForm where
  title : String
  authors : List Author
  genres : List GenreChecked
  book : Option Book
  errors : Option (List String)
deriving DecidableEq, Repr

/-- One response action of a handler, in program order: a redirect, one of
the renders (with the data mapping it receives), or `next(err)` with the
error's message and status. -/
inductive Action where
  | redirect (path : String)
  | renderBookDelete (book : Option Book) (book_instances : List BookInstance)
  | renderBookForm (form : BookForm)
  | renderBookDetail (book : Book) (book_instances : List BookInstance)
  | renderIndex (book_count book_instance_count book_instance_available_count
      author_count genre_count : Nat)
  | nextError (message : String) (status : Nat)
deriving DecidableEq, Repr

/-- Outcome of a handler body that can throw: either its response actions,
or an exception propagated unhandled to the top-level error handler. -/
inductive Outcome where
  | ok (actions : List Action)
  | thrown (message : String)
deriving DecidableEq, Repr

/-- The `genre` field of a request body, as delivered by the form parser:
absent, a single scalar string, or an array of strings. -/
inductive GenreField where
  | absent
  | scalar (s : String)
  | array (l : List String)
deriving DecidableEq, Repr

/-- A parsed request body for the book create/update forms. The four text
fields always arrive as strings; the multi-valued genre field may be
absent, scalar or an array. -/
structure ReqBody where
  title : String
  author : String
  summary : String
  isbn : String
  genre : GenreField
deriving DecidableEq, Repr

/-- The normalization middleware of `book_create_post`:
`if (!Array.isArray(req.body.genre)) req.body.genre =
typeof req.body.genre === "undefined" ? [] : new Array(req.body.genre)`.
An array is left as is; an absent field becomes `[]`; a scalar `s` becomes
`[s]` (`new Array(s)` with one non-numeric argument). -/
def normalizeGenreCreate : GenreField → List String
  | .array l => l
  | .absent => []
  | .scalar s => [s]

/-- The normalization middleware of `book_update_post`: identical up to the
array test (`instanceof Array` instead of `Array.isArray`), which agrees on
every value the form parser produces. -/
def normalizeGenreUpdate : GenreField → List String
  | .array l => l
  | .absent => []
  | .scalar s => [s]

/-- validator.js `escape` on a single character: `&`, `<`, `>`, `"`, the
single quote, `/`, the backslash and the backtick (code 96) are replaced by
their HTML entities, every other character is kept. -/
def escapeChar (c : Char) : String :=
  if c = '&' then "&amp;"
  else if c = '<' then "&lt;"
  else if c = '>' then "&gt;"
  else if c = '"' then "&quot;"
  else if c.toNat = 39 then "&#x27;"
  else if c = '/' then "&#x2F;"
  else if c.toNat = 92 then "&#x5C;"
  else if c.toNat = 96 then "&#96;"
  else String.singleton c

/-- validator.js `escape`, applied by the `.escape()` sanitizers. -/
def escape (s : String) : String :=
  String.join (s.data.map escapeChar)

/-- The `.trim()` sanitizer (JS `String.prototype.trim`): strip whitespace
from both ends, modelled structurally over the character list
(`Char.isWhitespace` stands for the JS whitespace class). -/
def jsTrim (s : String) : String :=
  ⟨((s.data.dropWhile Char.isWhitespace).reverse.dropWhile Char.isWhitespace).reverse⟩

/-- One `body(field, msg).trim().isLength({ min: 1 }).escape()` chain: the
value is trimmed, the trimmed value is validated as non-empty (producing
the chain's single message on failure), and the trimmed value is escaped
and written back to the body. Returns the sanitized value and the list of
violations of this chain (empty or the one message). -/
def checkField (v : String) (msg : String) : String × List String :=
  let t := jsTrim v
  (escape t, if t.length ≥ 1 then [] else [msg])

/-- The sanitized body after the validation middleware ran: trimmed and
escaped text fields, escaped genre elements, and the collected violations
in chain order (title, author, summary, isbn). -/
structure Sanitized where
  title : String
  author : String
  summary : String
  isbn : String
  genre : List String
  errors : List String
deriving DecidableEq, Repr

/-- Running the shared validation middleware of `book_create_post` /
`book_update_post` on an already genre-normalized body: the four required
fields through their chains, `body("genre.*").escape()` over the genre
list, and `validationResult(req).array()` as `errors`. -/
def runValidation (b : ReqBody) (genreNorm : GenreField → List String) : Sanitized :=
  let g := genreNorm b.genre
  let t := checkField b.title "Title must not be empty."
  let a := checkField b.author "Author must not be empty."
  let s := checkField b.summary "Summary must not be empty."
  let i := checkField b.isbn "ISBN must not be empty."
  { title := t.1, author := a.1, summary := s.1, isbn := i.1,
    genre := g.map escape,
    errors := t.2 ++ a.2 ++ s.2 ++ i.2 }

/-- The `new Book({...})` document built in `book_create_post` from the
sanitized body; mongoose assigns the fresh id at construction. -/
def createDoc (freshId : String) (s : Sanitized) : Book :=
  { _id := freshId, title := s.title, author := s.author,
    summary := s.summary, isbn := s.isbn, genre := s.genre }

/-- The `new Book({..., _id: req.params.id})` document built in
`book_update_post`: identical fields, identity taken from the request path
("this is required, or a new ID will be assigned"). The handler's inline
`typeof req.body.genre === "undefined" ? [] : req.body.genre` guard is
unreachable after the normalization middleware and adds nothing here. -/
def updateDoc (paramsId : String) (s : Sanitized) : Book :=
  { _id := paramsId, title := s.title, author := s.author,
    summary := s.summary, isbn := s.isbn, genre := s.genre }

/-- Modelled from the spec: the Book model file is not part of the sources,
so its `url` virtual is taken from the spec's "a canonical detail-page path
computed from the identifier", in the shape of the Author model's
`url` virtual that is present (`/catalog/author/<id>`). -/
def bookUrl (b : Book) : String :=
  "/catalog/book/" ++ b._id

/-- The five count queries issued by `index`, in source order. -/
inductive CountQuery where
  | bookAll
  | instanceAll
  | instanceAvailable
  | authorAll
  | genreAll
deriving DecidableEq, Repr

/-- The list of count queries `index` hands to `Promise.all`. -/
def indexQueries : List CountQuery :=
  [.bookAll, .instanceAll, .instanceAvailable, .authorAll, .genreAll]

/-- `countDocuments` semantics of each query over the store. -/
def countDocuments (db : Store) : CountQuery → Nat
  | .bookAll => db.books.length
  | .instanceAll => db.bookinstances.length
  | .instanceAvailable => (db.bookinstances.filter (fun bi => bi.status == "Available")).length
  | .authorAll => db.authors.length
  | .genreAll => db.genres.length

/-- The `index` handler: `Promise.all` over the five counts — it resolves
to the render of the summary only when every count resolves, and rejects
(propagating the failure of the whole handler) when any count rejects.
Each count is supplied by the store driver `r`, which may fail. -/
def index (r : CountQuery → Except String Nat) : Except String Action :=
  match r .bookAll, r .instanceAll, r .instanceAvailable, r .authorAll, r .genreAll with
  | .ok numBooks, .ok numInstances, .ok numAvailableInstances, .ok numAuthors, .ok numGenres =>
      .ok (.renderIndex numBooks numInstances numAvailableInstances numAuthors numGenres)
  | .error m, _, _, _, _ => .error m
  | _, .error m, _, _, _ => .error m
  | _, _, .error m, _, _ => .error m
  | _, _, _, .error m, _ => .error m
  | _, _, _, _, .error m => .error m

/-- The `book_detail` handler: fetch the book and its instances in
parallel; if the book is null, pass a 404 error to `next`; otherwise
render the detail view. -/
def book_detail (db : Store) (paramsId : String) : List Action :=
  let book := findById db.books paramsId
  let bookInstances := instancesOf db.bookinstances paramsId
  match book with
  | none => [.nextError "Book not found" 404]
  | some b => [.renderBookDetail b bookInstances]

/-- The `book_delete_get` handler: fetch the book and its instances; when
the book is null it redirects to the book list, but the redirect is not
followed by a return, so control falls through to the render of the
confirmation view as well. The returned list is the sequence of response
calls in program order. -/
def book_delete_get (db : Store) (paramsId : String) : List Action :=
  let book := findById db.books paramsId
  let bookInstances := instancesOf db.bookinstances paramsId
  match book with
  | none =>
      [.redirect "/catalog/books", .renderBookDelete none bookInstances]
  | some b =>
      [.renderBookDelete (some b) bookInstances]

/-- The `book_delete_post` handler: fetch the book and its instances for
`req.body.bookid`; when instances exist, re-render the confirmation view
with both (no deletion); otherwise delete the book and redirect to the
book list. -/
def book_delete_post (db : Store) (bookid : String) : Store × List Action :=
  let book := findById db.books bookid
  let bookInstances := instancesOf db.bookinstances bookid
  if bookInstances.length > 0 then
    (db, [.renderBookDelete book bookInstances])
  else
    ({ db with books := deleteById db.books bookid }, [.redirect "/catalog/books"])

/-- The `book_update_get` handler: fetch the book, all authors and all
genres in parallel; when the book is null, pass a 404 error to `next`;
otherwise mark the book's genres as checked and render the form. -/
def book_update_get (db : Store) (paramsId : String) : List Action :=
  match findById db.books paramsId with
  | none => [.nextError "Book not found" 404]
  | some b =>
      [.renderBookForm
        { title := "Update Book", authors := allAuthorsSorted db,
          genres := markChecked (allGenresSorted db) b.genre,
          book := some b, errors := none }]

/-- The `book_create_post` pipeline: genre normalization, the validation
middleware, then the handler — on violations re-render the form with the
sanitized book, checked genres and the violation list; on success save the
new book (mongoose assigns `freshId`) and redirect to its url. -/
def book_create_post (db : Store) (b : ReqBody) (freshId : String) : Store × List Action :=
  let s := runValidation b normalizeGenreCreate
  let book := createDoc freshId s
  if s.errors.isEmpty = false then
    (db, [.renderBookForm
      { title := "Create Book", authors := allAuthorsSorted db,
        genres := markChecked (allGenresSorted db) book.genre,
        book := some book, errors := some s.errors }])
  else
    ({ db with books := db.books ++ [book] }, [.redirect (bookUrl book)])

/-- The `book_update_post` pipeline: genre normalization, the validation
middleware, then the handler — on violations re-render the form; on
success `findByIdAndUpdate(req.params.id, book, {})` and redirect to
`updatedBook.url`. With default options the call resolves to the previous
document, or to `null` when the path id does not resolve, in which case
reading `updatedBook.url` throws and the rejection propagates unhandled. -/
def book_update_post (db : Store) (paramsId : String) (b : ReqBody) : Store × Outcome :=
  let s := runValidation b normalizeGenreUpdate
  let book := updateDoc paramsId s
  if s.errors.isEmpty = false then
    (db, .ok [.renderBookForm
      { title := "Update Book", authors := allAuthorsSorted db,
        genres := markChecked (allGenresSorted db) book.genre,
        book := some book, errors := some s.errors }])
  else
    match updateByIdResult db.books paramsId with
    | some updatedBook =>
        ({ db with books := updateById db.books paramsId book },
         .ok [.redirect (bookUrl updatedBook)])
    | none =>
        (db, .thrown "TypeError: Cannot read properties of null (reading url)")

/-- The `name` virtual of the Author model: "family_name, first_name",
empty when either part is missing (modelled as the empty string, the falsy
case for a required string field). -/
def Author.name (a : Author) : String :=
  if a.first_name ≠ "" ∧ a.family_name ≠ "" then
    a.family_name ++ ", " ++ a.first_name
  else ""

/-- The `lifespan` virtual of the Author model: start from the empty
string, append "Born: " plus the formatted birth date when present, then
append " - Died: " plus the formatted death date when present. -/
def Author.lifespan (a : Author) : String :=
  let s₁ :=
    match a.date_of_birth with
    | some b => "" ++ "Born: " ++ b
    | none => ""
  match a.date_of_death with
  | some d => s₁ ++ " - Died: " ++ d
  | none => s₁

/-- A store with no documents at all. -/
def emptyStore : Store :=
  { books := [], bookinstances := [], authors := [], genres := [] }

/-- A concrete Book document used to evaluate the handlers. -/
def sampleBook : Book :=
  { _id := "b1", title := "Dune", author := "a1", summary := "Desert planet",
    isbn := "9780441013593", genre := [] }

/-- A concrete BookInstance referencing `sampleBook`. -/
def sampleInstance : BookInstance :=
  { _id := "i1", book := "b1", imprint := "Ace, 1990", status := "Loaned",
    due_back := none }

/-- A store in which `sampleBook` still has one referencing instance. -/
def storeWithInstance : Store :=
  { books := [sampleBook], bookinstances := [sampleInstance],
    authors := [], genres := [] }

/-- A store in which `sampleBook` has no referencing instance. -/
def storeNoInstance : Store :=
  { books := [sampleBook], bookinstances := [], authors := [], genres := [] }

/-- A concrete valid form submission (all required fields non-empty after
trimming). -/
def sampleBody : ReqBody :=
  { title := " Dune ", author := "a1", summary := "Desert planet",
    isbn := "9780441013593", genre := GenreField.absent }

/-- A concrete invalid form submission: the title is whitespace only. -/
def emptyTitleBody : ReqBody :=
  { title := "   ", author := "a1", summary := "Desert planet",
    isbn := "9780441013593", genre := GenreField.scalar "g1" }

/-- A concrete Author with no recorded birth date and a death date. -/
def deadAuthor : Author :=
  { _id := "a1", first_name := "Frank", family_name := "Herbert",
    date_of_birth := none, date_of_death := some "11 Feb 1986" }

/-- Helper: a string other than the empty one has length at least one. -/
theorem one_le_length_of_ne_empty (s : String) (h : s ≠ "") : 1 ≤ s.length := by
  cases s with
  | mk data =>
    cases data with
    | nil => exact absurd rfl h
    | cons c cs => simp [String.length]

/-- Helper: a nonempty list is not `isEmpty`. -/
theorem isEmpty_false_of_ne_nil {α : Type} (l : List α) (h : l ≠ []) :
    l.isEmpty = false := by
  cases l with
  | nil => exact absurd rfl h
  | cons x xs => rfl

/-- Helper: a validation chain's violation list is its single message
exactly when the trimmed value is empty. -/
theorem checkField_errors (v msg : String) :
    (checkField v msg).2 = if jsTrim v = "" then [msg] else [] := by
  by_cases h : jsTrim v = ""
  · rw [if_pos h]
    simp [checkField, h]
  · rw [if_neg h]
    simp [checkField, one_le_length_of_ne_empty _ h]

/-- Helper: the collected violations of the validation middleware, one
message per required field whose trimmed value is empty, in chain order. -/
theorem runValidation_errors (b : ReqBody) (n : GenreField → List String) :
    (runValidation b n).errors =
      (if jsTrim b.title = "" then ["Title must not be empty."] else []) ++
      (if jsTrim b.author = "" then ["Author must not be empty."] else []) ++
      (if jsTrim b.summary = "" then ["Summary must not be empty."] else []) ++
      (if jsTrim b.isbn = "" then ["ISBN must not be empty."] else []) := by
  simp only [runValidation, checkField_errors]

/-- Helper: erasing the document with a given id from a collection whose
ids have no duplicates leaves no document with that id. -/
theorem deleteById_not_mem (books : List Book) (id : String)
    (h : (books.map Book._id).Nodup) :
    ∀ bk ∈ deleteById books id, bk._id ≠ id := by
  induction books with
  | nil => intro bk hbk; simp [deleteById] at hbk
  | cons x xs ih =>
    simp only [List.map_cons, List.nodup_cons] at h
    obtain ⟨hx, hxs⟩ := h
    intro bk hbk
    rw [deleteById, List.eraseP_cons] at hbk
    cases hbeq : (x._id == id) with
    | true =>
      rw [hbeq] at hbk
      simp only [cond_true] at hbk
      intro heq
      exact hx (by
        have hmem := List.mem_map_of_mem Book._id hbk
        rwa [heq, ← eq_of_beq hbeq] at hmem)
    | false =>
      rw [hbeq] at hbk
      simp only [cond_false, List.mem_cons] at hbk
      rcases hbk with rfl | hbk
      · intro heq
        rw [heq] at hbeq
        simp at hbeq
      · exact ih hxs bk hbk

/-- Helper: updating a document in place never changes the sequence of
document ids of the collection. -/
theorem updateById_map_id (books : List Book) (id : String) (doc : Book) :
    (updateById books id doc).map Book._id = books.map Book._id := by
  induction books with
  | nil => rfl
  | cons x xs ih =>
    rw [updateById]
    cases hx : (x._id == id) with
    | false => simp [ih]
    | true => simp

/-- C1: on a delete-POST for a Book, when at least one BookInstance
references it the store is returned entirely unchanged and the single
response is the re-render of the confirmation view with the book and its
instances (no error action); when zero instances reference it the book is
removed from the collection (every other collection untouched) and the
single response is the redirect to the book list. -/
theorem book_delete_post_guard (db : Store) (bookid : String)
    (hids : (db.books.map Book._id).Nodup) :
    ((instancesOf db.bookinstances bookid).length > 0 →
      (book_delete_post db bookid).1 = db ∧
      (book_delete_post db bookid).2 =
        [Action.renderBookDelete (findById db.books bookid)
          (instancesOf db.bookinstances bookid)]) ∧
    ((instancesOf db.bookinstances bookid).length = 0 →
      (book_delete_post db bookid).1.books = deleteById db.books bookid ∧
      (∀ bk ∈ (book_delete_post db bookid).1.books, bk._id ≠ bookid) ∧
      (book_delete_post db bookid).1.bookinstances = db.bookinstances ∧
      (book_delete_post db bookid).1.authors = db.authors ∧
      (book_delete_post db bookid).1.genres = db.genres ∧
      (book_delete_post db bookid).2 = [Action.redirect "/catalog/books"]) := by
  constructor
  · intro h
    simp only [book_delete_post]
    rw [if_pos h]
    exact ⟨rfl, rfl⟩
  · intro h
    simp only [book_delete_post]
    rw [if_neg (by omega)]
    refine ⟨rfl, ?_, rfl, rfl, rfl, rfl⟩
    exact deleteById_not_mem db.books bookid hids

/-- Witness for C1 at concrete stores: the guarded branch on
`storeWithInstance` and the deleting branch on `storeNoInstance`. -/
theorem book_delete_post_guard_witness :
    ((instancesOf storeWithInstance.bookinstances "b1").length > 0 ∧
      (book_delete_post storeWithInstance "b1").1 = storeWithInstance) ∧
    ((instancesOf storeNoInstance.bookinstances "b1").length = 0 ∧
      (book_delete_post storeNoInstance "b1").2 = [Action.redirect "/catalog/books"]) :=
  ⟨⟨by decide,
    ((book_delete_post_guard storeWithInstance "b1" (by decide)).1 (by decide)).1⟩,
   ⟨by decide,
    (((book_delete_post_guard storeNoInstance "b1" (by decide)).2 (by decide)).2.2.2.2.2)⟩⟩

/-- C2: a create-POST or update-POST in which some required field is empty
after trimming persists nothing — the store is returned unchanged by both
pipelines — and each re-renders the form whose violation list contains
exactly one message per missing field and nothing else (both pipelines
collect the same list). -/
theorem book_form_invalid_rerenders (db : Store) (b : ReqBody)
    (freshId paramsId : String)
    (h : jsTrim b.title = "" ∨ jsTrim b.author = "" ∨
         jsTrim b.summary = "" ∨ jsTrim b.isbn = "") :
    ((runValidation b normalizeGenreUpdate).errors
       = (runValidation b normalizeGenreCreate).errors) ∧
    ((book_create_post db b freshId).1 = db ∧
      ∃ f : BookForm,
        (book_create_post db b freshId).2 = [Action.renderBookForm f] ∧
        f.errors = some (runValidation b normalizeGenreCreate).errors) ∧
    ((book_update_post db paramsId b).1 = db ∧
      ∃ f : BookForm,
        (book_update_post db paramsId b).2 = Outcome.ok [Action.renderBookForm f] ∧
        f.errors = some (runValidation b normalizeGenreCreate).errors) ∧
    ((runValidation b normalizeGenreCreate).errors.count "Title must not be empty."
       = if jsTrim b.title = "" then 1 else 0) ∧
    ((runValidation b normalizeGenreCreate).errors.count "Author must not be empty."
       = if jsTrim b.author = "" then 1 else 0) ∧
    ((runValidation b normalizeGenreCreate).errors.count "Summary must not be empty."
       = if jsTrim b.summary = "" then 1 else 0) ∧
    ((runValidation b normalizeGenreCreate).errors.count "ISBN must not be empty."
       = if jsTrim b.isbn = "" then 1 else 0) ∧
    ((runValidation b normalizeGenreCreate).errors.length
       = (if jsTrim b.title = "" then 1 else 0)
         + (if jsTrim b.author = "" then 1 else 0)
         + (if jsTrim b.summary = "" then 1 else 0)
         + (if jsTrim b.isbn = "" then 1 else 0)) := by
  have hC := runValidation_errors b normalizeGenreCreate
  have hne : (runValidation b normalizeGenreCreate).errors ≠ [] := by
    rw [hC]
    rcases h with h | h | h | h <;> simp [h, List.append_eq_nil]
  have hfC : (runValidation b normalizeGenreCreate).errors.isEmpty = false :=
    isEmpty_false_of_ne_nil _ hne
  have hfU : (runValidation b normalizeGenreUpdate).errors.isEmpty = false := hfC
  refine ⟨rfl, ⟨?_, ?_⟩, ⟨?_, ?_⟩, ?_⟩
  · simp only [book_create_post]
    rw [if_pos hfC]
  · exact ⟨{ title := "Create Book", authors := allAuthorsSorted db,
             genres := markChecked (allGenresSorted db)
               (createDoc freshId (runValidation b normalizeGenreCreate)).genre,
             book := some (createDoc freshId (runValidation b normalizeGenreCreate)),
             errors := some (runValidation b normalizeGenreCreate).errors },
           by simp only [book_create_post]; rw [if_pos hfC], rfl⟩
  · simp only [book_update_post]
    rw [if_pos hfU]
  · exact ⟨{ title := "Update Book", authors := allAuthorsSorted db,
             genres := markChecked (allGenresSorted db)
               (updateDoc paramsId (runValidation b normalizeGenreUpdate)).genre,
             book := some (updateDoc paramsId (runValidation b normalizeGenreUpdate)),
             errors := some (runValidation b normalizeGenreUpdate).errors },
           by simp only [book_update_post]; rw [if_pos hfU], rfl⟩
  · rw [hC]
    by_cases h1 : jsTrim b.title = "" <;> by_cases h2 : jsTrim b.author = "" <;>
      by_cases h3 : jsTrim b.summary = "" <;> by_cases h4 : jsTrim b.isbn = "" <;>
      simp [h1, h2, h3, h4]

/-- Witness for C2: a whitespace-only title against the empty store leaves
both pipelines with the store unchanged and yields exactly one violation
for the title. -/
theorem book_form_invalid_rerenders_witness :
    jsTrim emptyTitleBody.title = "" ∧
    (book_create_post emptyStore emptyTitleBody "b1").1 = emptyStore ∧
    (book_update_post emptyStore "b1" emptyTitleBody).1 = emptyStore ∧
    (runValidation emptyTitleBody normalizeGenreCreate).errors.count
      "Title must not be empty." = 1 :=
  ⟨by decide,
   (book_form_invalid_rerenders emptyStore emptyTitleBody "b1" "b1"
     (Or.inl (by decide))).2.1.1,
   (book_form_invalid_rerenders emptyStore emptyTitleBody "b1" "b1"
     (Or.inl (by decide))).2.2.1.1,
   (book_form_invalid_rerenders emptyStore emptyTitleBody "b1" "b1"
     (Or.inl (by decide))).2.2.2.1⟩

/-- C3: a create-POST whose four required fields are non-empty after
trimming persists exactly one new record, appended to the collection, whose
required fields are the trimmed-and-escaped submitted values (each genre
element escaped), and the single response is the redirect to the record's
derived url. -/
theorem book_create_post_valid (db : Store) (b : ReqBody) (freshId : String)
    (ht : jsTrim b.title ≠ "") (ha : jsTrim b.author ≠ "")
    (hs : jsTrim b.summary ≠ "") (hi : jsTrim b.isbn ≠ "") :
    (book_create_post db b freshId).1.books
      = db.books ++ [createDoc freshId (runValidation b normalizeGenreCreate)] ∧
    (book_create_post db b freshId).1.bookinstances = db.bookinstances ∧
    (book_create_post db b freshId).1.authors = db.authors ∧
    (book_create_post db b freshId).1.genres = db.genres ∧
    (book_create_post db b freshId).2
      = [Action.redirect (bookUrl (createDoc freshId (runValidation b normalizeGenreCreate)))] ∧
    (createDoc freshId (runValidation b normalizeGenreCreate))._id = freshId ∧
    (createDoc freshId (runValidation b normalizeGenreCreate)).title
      = escape (jsTrim b.title) ∧
    (createDoc freshId (runValidation b normalizeGenreCreate)).author
      = escape (jsTrim b.author) ∧
    (createDoc freshId (runValidation b normalizeGenreCreate)).summary
      = escape (jsTrim b.summary) ∧
    (createDoc freshId (runValidation b normalizeGenreCreate)).isbn
      = escape (jsTrim b.isbn) ∧
    (createDoc freshId (runValidation b normalizeGenreCreate)).genre
      = (normalizeGenreCreate b.genre).map escape := by
  have herr : (runValidation b normalizeGenreCreate).errors = [] := by
    rw [runValidation_errors]
    simp [ht, ha, hs, hi]
  have hfalse : ¬((runValidation b normalizeGenreCreate).errors.isEmpty = false) := by
    rw [herr]
    simp
  refine ⟨?_, ?_, ?_, ?_, ?_, rfl, rfl, rfl, rfl, rfl, rfl⟩ <;>
    · simp only [book_create_post]
      rw [if_neg hfalse]

/-- Witness for C3: the concrete valid submission against the empty store
is persisted and the response redirects to its url. -/
theorem book_create_post_valid_witness :
    jsTrim sampleBody.title ≠ "" ∧ jsTrim sampleBody.author ≠ "" ∧
    jsTrim sampleBody.summary ≠ "" ∧ jsTrim sampleBody.isbn ≠ "" ∧
    (book_create_post emptyStore sampleBody "b1").1.books
      = emptyStore.books ++ [createDoc "b1" (runValidation sampleBody normalizeGenreCreate)] ∧
    (book_create_post emptyStore sampleBody "b1").2
      = [Action.redirect (bookUrl (createDoc "b1" (runValidation sampleBody normalizeGenreCreate)))] :=
  ⟨by decide, by decide, by decide, by decide,
   (book_create_post_valid emptyStore sampleBody "b1"
     (by decide) (by decide) (by decide) (by decide)).1,
   (book_create_post_valid emptyStore sampleBody "b1"
     (by decide) (by decide) (by decide) (by decide)).2.2.2.2.1⟩

/-- C8: `index` issues exactly the five distinct count queries; its result
depends only on the driver's answers on those five queries; when every
count resolves over a store it renders the single summary view carrying
the five counts; and when any of the five counts fails the whole handler
fails — no partial render. -/
theorem index_five_counts :
    indexQueries.length = 5 ∧
    indexQueries.Nodup ∧
    (∀ r r' : CountQuery → Except String Nat,
      (∀ q ∈ indexQueries, r q = r' q) → index r = index r') ∧
    (∀ db : Store,
      index (fun q => Except.ok (countDocuments db q)) =
        Except.ok (Action.renderIndex db.books.length db.bookinstances.length
          ((db.bookinstances.filter (fun bi => bi.status == "Available")).length)
          db.authors.length db.genres.length)) ∧
    (∀ (r : CountQuery → Except String Nat) (q : CountQuery) (m : String),
      q ∈ indexQueries → r q = Except.error m →
        ∃ m', index r = Except.error m') := by
  refine ⟨rfl, by decide, ?_, fun db => rfl, ?_⟩
  · intro r r' hagree
    unfold index
    rw [hagree .bookAll (by decide), hagree .instanceAll (by decide),
        hagree .instanceAvailable (by decide), hagree .authorAll (by decide),
        hagree .genreAll (by decide)]
  · intro r q m hqmem hrm
    unfold index
    cases q <;>
      cases h1 : r .bookAll <;> cases h2 : r .instanceAll <;>
      cases h3 : r .instanceAvailable <;> cases h4 : r .authorAll <;>
      cases h5 : r .genreAll <;>
      first
        | exact ⟨_, rfl⟩
        | simp_all

/-- Witness for C8: a driver that fails every count fails the handler, and
the counts over `storeWithInstance` render the summary (1, 1, 0, 0, 0). -/
theorem index_five_counts_witness :
    (fun _ : CountQuery => (Except.error "db down" : Except String Nat))
        CountQuery.bookAll = Except.error "db down" ∧
    (∃ m', index (fun _ => Except.error "db down") = Except.error m') ∧
    index (fun q => Except.ok (countDocuments storeWithInstance q))
      = Except.ok (Action.renderIndex 1 1 0 0 0) :=
  ⟨rfl,
   index_five_counts.2.2.2.2 (fun _ => Except.error "db down")
     CountQuery.bookAll "db down" (by decide) rfl,
   index_five_counts.2.2.2.1 storeWithInstance⟩

/-- C9 counterexample: for an Author with no birth date and a death date
the code yields " - Died: 11 Feb 1986" — the " - " separator survives in
front of the Died clause, so the string is not only the remaining clause
as the claim states. -/
theorem author_lifespan_counterexample :
    deadAuthor.lifespan = " - Died: 11 Feb 1986" ∧
    deadAuthor.lifespan ≠ "Died: 11 Feb 1986" :=
  ⟨rfl, by decide⟩

/-- C9 amended: the lifespan string is empty when both dates are absent;
"Born: <date>" when only the birth date is present; " - Died: <date>" —
the separator before the Died clause is retained — when only the death
date is present; and "Born: <b> - Died: <d>" when both are present. -/
theorem author_lifespan_cases (a : Author) :
    (a.date_of_birth = none → a.date_of_death = none → a.lifespan = "") ∧
    (∀ b, a.date_of_birth = some b → a.date_of_death = none →
        a.lifespan = "Born: " ++ b) ∧
    (∀ d, a.date_of_birth = none → a.date_of_death = some d →
        a.lifespan = " - Died: " ++ d) ∧
    (∀ b d, a.date_of_birth = some b → a.date_of_death = some d →
        a.lifespan = "Born: " ++ b ++ " - Died: " ++ d) := by
  obtain ⟨i, fn, ln, dbirth, ddeath⟩ := a
  refine ⟨fun h1 h2 => ?_, fun b h1 h2 => ?_, fun d h1 h2 => ?_,
    fun b d h1 h2 => ?_⟩ <;>
    (subst h1; subst h2; rfl)

/-- Witness for the amended C9 at the concrete author with only a death
date. -/
theorem author_lifespan_cases_witness :
    deadAuthor.date_of_birth = none ∧
    deadAuthor.date_of_death = some "11 Feb 1986" ∧
    deadAuthor.lifespan = " - Died: " ++ "11 Feb 1986" :=
  ⟨rfl, rfl, (author_lifespan_cases deadAuthor).2.2.1 "11 Feb 1986" rfl rfl⟩

/-- C4 (code bug): evaluating `book_delete_get` at an identifier that does
not resolve shows the handler emits the redirect to the book list and THEN
also renders the confirmation view — the early return after
`res.redirect` is missing — so the response is not the redirect alone. -/
theorem book_delete_get_double_response :
    book_delete_get emptyStore "000000000000000000000000" =
      [Action.redirect "/catalog/books", Action.renderBookDelete none []] ∧
    book_delete_get emptyStore "000000000000000000000000" ≠
      [Action.redirect "/catalog/books"] := by
  exact ⟨rfl, by decide⟩

/-- C5: a detail-GET or update-GET whose identifier does not resolve to a
Book produces exactly one action: an explicit error with message
"Book not found" and status 404 handed to `next` — no view is rendered. -/
theorem book_notfound_404 (db : Store) (id : String)
    (h : findById db.books id = none) :
    book_detail db id = [Action.nextError "Book not found" 404] ∧
    book_update_get db id = [Action.nextError "Book not found" 404] := by
  unfold book_detail book_update_get
  rw [h]
  exact ⟨rfl, rfl⟩

/-- Witness for C5: on the empty store every identifier is unresolvable
and both GET handlers produce only the 404 error action. -/
theorem book_notfound_404_witness :
    findById emptyStore.books "b1" = none ∧
    book_detail emptyStore "b1" = [Action.nextError "Book not found" 404] ∧
    book_update_get emptyStore "b1" = [Action.nextError "Book not found" 404] :=
  ⟨rfl, book_notfound_404 emptyStore "b1" rfl⟩

/-- C6: the document written by an update-POST carries the identifier
taken from the request path, and the update never assigns a new
identifier: the sequence of ids in the store is unchanged whatever the
submission. -/
theorem book_update_post_preserves_id (db : Store) (paramsId : String) (b : ReqBody) :
    (updateDoc paramsId (runValidation b normalizeGenreUpdate))._id = paramsId ∧
    (book_update_post db paramsId b).1.books.map Book._id = db.books.map Book._id := by
  refine ⟨rfl, ?_⟩
  simp only [book_update_post]
  split
  · rfl
  · split
    · exact updateById_map_id db.books paramsId _
    · rfl

/-- C7: the genre field is coerced to a sequence first (absent becomes the
empty sequence, a scalar becomes the one-element sequence, an array is
kept), in both the create and the update pipeline, and each pipeline
behaves exactly as if it had received the normalized sequence. -/
theorem genre_normalized_first (s : String) (l : List String) (db : Store)
    (b : ReqBody) (freshId paramsId : String) :
    normalizeGenreCreate GenreField.absent = [] ∧
    normalizeGenreCreate (GenreField.scalar s) = [s] ∧
    normalizeGenreCreate (GenreField.array l) = l ∧
    normalizeGenreUpdate GenreField.absent = [] ∧
    normalizeGenreUpdate (GenreField.scalar s) = [s] ∧
    normalizeGenreUpdate (GenreField.array l) = l ∧
    book_create_post db b freshId =
      book_create_post db
        { b with genre := GenreField.array (normalizeGenreCreate b.genre) } freshId ∧
    book_update_post db paramsId b =
      book_update_post db paramsId
        { b with genre := GenreField.array (normalizeGenreUpdate b.genre) } := by
  obtain ⟨bt, ba, bs, bi, g⟩ := b
  refine ⟨rfl, rfl, rfl, rfl, rfl, rfl, ?_, ?_⟩ <;> cases g <;> rfl

/-- C10: a valid update-POST whose path identifier does not resolve does
not produce a not-found response: the update call yields no document, the
read of its url throws, and the exception propagates unhandled out of the
handler, leaving the store untouched. -/
theorem book_update_post_unresolved_throws (db : Store) (paramsId : String)
    (b : ReqBody)
    (hvalid : (runValidation b normalizeGenreUpdate).errors = [])
    (hmiss : findById db.books paramsId = none) :
    updateByIdResult db.books paramsId = none ∧
    (book_update_post db paramsId b).1 = db ∧
    (book_update_post db paramsId b).2 =
      Outcome.thrown "TypeError: Cannot read properties of null (reading url)" := by
  refine ⟨hmiss, ?_, ?_⟩ <;>
    simp [book_update_post, hvalid, updateByIdResult, hmiss]

/-- Witness for C10: a fully valid submission against the empty store
leaves the store unchanged and throws. -/
theorem book_update_post_unresolved_throws_witness :
    (runValidation sampleBody normalizeGenreUpdate).errors = [] ∧
    findById emptyStore.books "b9" = none ∧
    (book_update_post emptyStore "b9" sampleBody).2 =
      Outcome.thrown "TypeError: Cannot read properties of null (reading url)" :=
  ⟨by decide, rfl,
   (book_update_post_unresolved_throws emptyStore "b9" sampleBody (by decide) rfl).2.2⟩

end LocalLibrary
